import Mathlib

/-!
Verification development for the utility-meter accumulation engine
(custom component: utility_meter, files const.py and sensor.py).

The embedding models Python Decimal values as rationals, raw sensor state
strings as an inductive PyStr (a string either parses as a finite decimal
with a given value, is one of the sentinel strings unknown/unavailable,
or is some other non-numeric text), timestamps as natural-number ticks,
and the collection subscription handle as the boolean it encodes
(collecting or paused).  Each Python method of UtilityMeterSensor that the
claims touch becomes a pure state-transformer; methods that can let an
exception escape to the caller return the partially mutated state paired
with an optional exception marker, since Python mutations performed before
the raise survive on the object.
-/

/-- A raw Python state string, classified by how Decimal and the
unknown/unavailable sentinel checks in sensor.py treat it. -/
inductive PyStr where
  | num (q : ℚ)
  | unknownS
  | unavailableS
  | other (s : String)
  deriving DecidableEq

/-- Decimal(s) in sensor.py: succeeds exactly on decimal-parseable strings.
Failure raises InvalidOperation, a DecimalException. -/
def parseDecimal : PyStr → Option ℚ
  | PyStr.num q => some q
  | _ => none

/-- homeassistant.helpers.template.is_number as used by the legacy restore
path: true exactly for numeric strings. -/
def isNumber : PyStr → Bool
  | PyStr.num _ => true
  | _ => false

/-- Python truthiness of a state string: only the empty string is falsy. -/
def PyStr.truthy : PyStr → Bool
  | PyStr.other s => !s.isEmpty
  | _ => true

/-- The membership test in [STATE_UNKNOWN, STATE_UNAVAILABLE] from
sensor.py lines 378 and 382. -/
def stateIsUnknown : PyStr → Bool
  | PyStr.unknownS => true
  | PyStr.unavailableS => true
  | _ => false

/-- The three-way dispatch in async_reading lines 389-394.  sensor.py
imports the mode sentinels NORMAL and DELTA from const.py; every other
mode value falls into the else branch, which diffs against the stored
last value (the mode the spec calls LastReading). -/
inductive MeterMode where
  | normal
  | delta
  | lastReading
  deriving DecidableEq

/-- Immutable per-meter configuration (subset of the constructor
arguments of UtilityMeterSensor that the modelled behaviour reads). -/
structure MeterConfig where
  mode : MeterMode
  net_consumption : Bool
  tariff : Option String
  tariff_entity : Option String
  deriving DecidableEq

/-- The mutable state of one UtilityMeterSensor: the running total
(self underscore state), the stored last raw value, the last committed
period, the last reset instant, the unit of measurement and the
collecting flag (self underscore collecting is not None). -/
structure MeterState where
  state : Option ℚ
  last_value : Option PyStr
  last_period : ℚ
  last_reset : Option Nat
  unit : Option String
  collecting : Bool
  deriving DecidableEq

/-- The object state built by UtilityMeterSensor init: total unset,
last value unset, last period zero, last reset now, no unit, paused. -/
def initMeterState (now : Nat) : MeterState :=
  { state := none
    last_value := none
    last_period := 0
    last_reset := some now
    unit := none
    collecting := false }

/-- One participant of a state-change event: the state string and the
unit-of-measurement attribute. -/
structure StateObj where
  state : PyStr
  unit : Option String
  deriving DecidableEq

/-- A source state-change event as delivered to async_reading. -/
structure ReadingEvent where
  old_state : Option StateObj
  new_state : Option StateObj
  deriving DecidableEq

/-- Exceptions that can escape the modelled methods to the caller.
DecimalException is caught inside async_reading and therefore never
appears here. -/
inductive PyExc where
  | attributeError
  | typeError
  deriving DecidableEq

/-- Internal classification of the adjustment computation: decErr is a
DecimalException (caught by async_reading), typeErr the TypeError from
Decimal(None), attrErr the AttributeError from reading .state off None. -/
inductive AdjErr where
  | decErr
  | typeErr
  | attrErr
  deriving DecidableEq

/-- UtilityMeterSensor.start, sensor.py lines 358-362: unconditionally
records the unit and sets the total to zero. -/
def start (unit : Option String) (s : MeterState) : MeterState :=
  { s with unit := unit, state := some 0 }

/-- The old-state guard of Normal mode, lines 381-384: skip when the old
state is absent or unknown/unavailable. -/
def oldMissing : Option StateObj → Bool
  | none => true
  | some os => stateIsUnknown os.state

/-- The adjustment computation of async_reading lines 389-394, with
Python evaluation order: Decimal(new) first, then the second operand.
Delta mode uses the new value alone; Normal mode diffs new against old;
any other mode diffs new against the stored last value, where
Decimal(None) raises TypeError, an exception the except clause does not
catch. -/
def computeAdjustment : MeterMode → StateObj → Option StateObj → Option PyStr → Except AdjErr ℚ
  | MeterMode.delta, ns, _, _ =>
    match parseDecimal ns.state with
    | some q => Except.ok q
    | none => Except.error AdjErr.decErr
  | MeterMode.normal, ns, oldSt, _ =>
    match parseDecimal ns.state with
    | none => Except.error AdjErr.decErr
    | some n =>
      match oldSt with
      | none => Except.error AdjErr.attrErr
      | some os =>
        match parseDecimal os.state with
        | none => Except.error AdjErr.decErr
        | some o => Except.ok (n - o)
  | MeterMode.lastReading, ns, _, lastV =>
    match parseDecimal ns.state with
    | none => Except.error AdjErr.decErr
    | some n =>
      match lastV with
      | none => Except.error AdjErr.typeErr
      | some lv =>
        match parseDecimal lv with
        | none => Except.error AdjErr.decErr
        | some l => Except.ok (n - l)

/-- The tail of the try block in async_reading, lines 395-415: acting on
the result of the adjustment computation.  A caught DecimalException
only logs; the uncaught TypeError and AttributeError escape; on success
the last raw value is stored first, then a negative adjustment with
net consumption disabled is discarded, and otherwise the adjustment is
added to the total (adding to a still-unset total would itself be a
TypeError). -/
def applyAdjustment (net : Bool) (ns : StateObj) (s2 : MeterState) :
    Except AdjErr ℚ → MeterState × Option PyExc
  | Except.error AdjErr.decErr => (s2, none)
  | Except.error AdjErr.typeErr => (s2, some PyExc.typeError)
  | Except.error AdjErr.attrErr => (s2, some PyExc.attributeError)
  | Except.ok adj =>
    let s3 := { s2 with last_value := some ns.state }
    if net = false ∧ adj < 0 then (s3, none)
    else
      match s3.state with
      | some t => ({ s3 with state := some (t + adj) }, none)
      | none => (s3, some PyExc.typeError)

/-- UtilityMeterSensor.async_reading, sensor.py lines 364-417, as a pure
transformer on this meter's own state.  sourceUnit is the unit attribute
of the source entity looked up for the first-update fan-out; the fan-out
effect on this sensor itself is start sourceUnit.  The returned
exception marker records an exception escaping to the caller; mutations
made before the raise are kept, as on the Python object.  Control flow:
reading .state off an absent new state on line 370 raises while the
total is unset; the first truthy update starts the meter; unknown or
unavailable new values skip; Normal mode skips when the old state is
absent or unknown; then the unit is overwritten and the adjustment
computed and applied. -/
def async_reading (cfg : MeterConfig) (sourceUnit : Option String)
    (s0 : MeterState) : ReadingEvent → MeterState × Option PyExc
  | ReadingEvent.mk _ none =>
    if s0.state = none then (s0, some PyExc.attributeError) else (s0, none)
  | ReadingEvent.mk os (some ns) =>
    let s1 := if s0.state = none ∧ ns.state.truthy then start sourceUnit s0 else s0
    if stateIsUnknown ns.state then (s1, none)
    else if cfg.mode = MeterMode.normal ∧ oldMissing os then (s1, none)
    else
      let s2 := { s1 with unit := ns.unit }
      applyAdjustment cfg.net_consumption ns s2
        (computeAdjustment cfg.mode ns os s2.last_value)

/-- UtilityMeterSensor.async_reset_meter, sensor.py lines 459-468:
no-op unless the broadcast entity matches this meter's tariff entity;
otherwise stamps the reset instant, freezes the closed total into
the last period field -- the truthiness test on self underscore state means both
an unset and a zero total freeze Decimal(0) -- zeroes the total and
clears the last raw value. -/
def async_reset_meter (cfg : MeterConfig) (now : Nat) (entity_id : Option String)
    (s : MeterState) : MeterState :=
  if cfg.tariff_entity ≠ entity_id then s
  else
    { s with
      last_reset := some now
      last_period := match s.state with
                     | some t => if t = 0 then (0 : ℚ) else t
                     | none => 0
      state := some 0
      last_value := none }

/-- UtilityMeterSensor.async_calibrate, sensor.py lines 470-475: forces
the total to the given numeric value and clears the last raw value. -/
def async_calibrate (value : ℚ) (s : MeterState) : MeterState :=
  { s with state := some value, last_value := none }

/-- UtilityMeterSensor change-status helper, sensor.py lines 428-445, on
the boolean abstraction of the subscription handle: subscribe when the
tariff value matches this meter's tariff, otherwise unsubscribe. -/
def change_status (cfg : MeterConfig) (tariff : String) (s : MeterState) : MeterState :=
  if cfg.tariff = some tariff then { s with collecting := true }
  else { s with collecting := false }

/-- UtilityMeterSensor.async_tariff_change, sensor.py lines 419-426:
ignore events without a new state; otherwise clear the last raw value
unconditionally and then run the status change on the new value. -/
def async_tariff_change (cfg : MeterConfig) (s : MeterState)
    (newVal : Option String) : MeterState :=
  match newVal with
  | none => s
  | some v => change_status cfg v { s with last_value := none }

/-- The status marker strings of sensor.py lines 101-102. -/
def COLLECTING : String := "collecting"

/-- The paused status marker of sensor.py line 101. -/
def PAUSED : String := "paused"

/-- The UtilitySensorExtraStoredData dataclass of sensor.py lines
260-267: the base-class fields native value and unit plus the extra
fields.  last_value holds whatever self underscore last value held (a
state string, a restored decimal -- represented here by its numeric
PyStr -- or None). -/
structure UtilitySensorExtraStoredData where
  native_value : Option ℚ
  native_unit_of_measurement : Option String
  last_period : ℚ
  last_value : Option PyStr
  last_reset : Option Nat
  status : String
  deriving DecidableEq

/-- The serialized dict produced by as_dict and consumed by from_dict.
Modelled from the spec: the base class SensorExtraStoredData lives in
the host sensor framework, outside this repository; per the spec's
PersistedSnapshot shape its as_dict and from_dict carry native_value
and the unit through faithfully, so they appear here as plain fields.
The extra keys are Option because from_dict must face dicts where a key
is missing (KeyError). -/
structure SnapshotDict where
  native_value : Option ℚ
  native_unit : Option String
  last_period : Option PyStr
  last_value : Option PyStr
  last_reset : Option Nat
  status : Option String
  deriving DecidableEq

/-- str(x) applied to self.last_value by as_dict: a stored string
serializes as itself, a stored Decimal as its numeral, and None as the
four-letter string None, which does not parse as a decimal. -/
def strOfLastValue : Option PyStr → PyStr
  | some p => p
  | none => PyStr.other "None"

/-- UtilitySensorExtraStoredData.as_dict, sensor.py lines 269-278:
stringify last period and last value, emit last reset only when it is a
datetime, and copy the status. -/
def UtilitySensorExtraStoredData.as_dict (d : UtilitySensorExtraStoredData) : SnapshotDict :=
  { native_value := d.native_value
    native_unit := d.native_unit_of_measurement
    last_period := some (PyStr.num d.last_period)
    last_value := some (strOfLastValue d.last_value)
    last_reset := d.last_reset
    status := d.status }

/-- UtilitySensorExtraStoredData.from_dict, sensor.py lines 280-306:
after the base-class decode, read the four extra keys in order; a
missing key (KeyError) or a non-decimal string (InvalidOperation)
makes the whole decode return None. -/
def UtilitySensorExtraStoredData.from_dict (r : SnapshotDict) : Option UtilitySensorExtraStoredData :=
  match r.last_period with
  | none => none
  | some lp =>
    match parseDecimal lp with
    | none => none
    | some lpq =>
      match r.last_value with
      | none => none
      | some lv =>
        match parseDecimal lv with
        | none => none
        | some lvq =>
          match r.last_reset with
          | none => none
          | some lr =>
            match r.status with
            | none => none
            | some st =>
              some { native_value := r.native_value
                     native_unit_of_measurement := r.native_unit
                     last_period := lpq
                     last_value := some (PyStr.num lvq)
                     last_reset := some lr
                     status := st }

/-- UtilityMeterSensor.extra_restore_state_data, sensor.py lines
634-644: the snapshot written for this meter's state. -/
def extra_restore_state_data (s : MeterState) : UtilitySensorExtraStoredData :=
  { native_value := s.state
    native_unit_of_measurement := s.unit
    last_period := s.last_period
    last_value := s.last_value
    last_reset := s.last_reset
    status := if s.collecting then COLLECTING else PAUSED }

/-- The preferred-shape restore branch of async_added_to_hass, sensor.py
lines 496-505, applied to the freshly initialized state: copy the five
fields verbatim and mark collecting only when the status equals the
collecting marker. -/
def restore_preferred (d : UtilitySensorExtraStoredData) (s : MeterState) : MeterState :=
  { s with
    state := d.native_value
    unit := d.native_unit_of_measurement
    last_value := d.last_value
    last_period := d.last_period
    last_reset := d.last_reset
    collecting := if d.status = COLLECTING then true else s.collecting }

/-- A legacy-shape stored state: the bare state string plus the
free-form attributes the legacy restore path reads.  last_reset holds
the parse result of the last-reset attribute when that attribute is
present and parseable; any other case raises inside the restore (see
legacy_restore). -/
structure LegacyState where
  state : PyStr
  unit : Option String
  last_period : Option PyStr
  last_value : Option PyStr
  last_reset : Option Nat
  status : Option String
  deriving DecidableEq

/-- The legacy restore branch of async_added_to_hass, sensor.py lines
507-534.  An undecodable bare value is caught (InvalidOperation): the
error is logged and nothing is restored -- a cold start.  Otherwise the
total, unit, last period (defaulting to zero when the attribute is
missing, falsy or non-numeric) and last value are written in order;
then the last-reset attribute is parsed, where a missing or unparsable
attribute raises out of the restore with the earlier writes kept; and
finally the status attribute may mark the meter collecting. -/
def legacy_restore (ls : LegacyState) (s : MeterState) : MeterState × Option PyExc :=
  match parseDecimal ls.state with
  | none => (s, none)
  | some v =>
    let s1 := { s with
      state := some v
      unit := ls.unit
      last_period := match ls.last_period with
                     | some p => if p.truthy ∧ isNumber p then (parseDecimal p).getD 0 else 0
                     | none => 0 }
    let s2 := match ls.last_value with
              | some lv => { s1 with last_value := some lv }
              | none => s1
    match ls.last_reset with
    | none => (s2, some PyExc.typeError)
    | some t =>
      let s3 := { s2 with last_reset := some t }
      if ls.status = some COLLECTING then ({ s3 with collecting := true }, none)
      else (s3, none)

/-- The operations of the accumulator life that the invariant claims
quantify over: start, a source reading, a reset broadcast, and a
calibration command. -/
inductive MeterOp where
  | opStart (unit : Option String)
  | opReading (sourceUnit : Option String) (ev : ReadingEvent)
  | opReset (now : Nat) (entity : Option String)
  | opCalibrate (v : ℚ)

/-- Apply one operation to the meter state, discarding the exception
marker of a reading (the object keeps its mutated state either way). -/
def applyOp (cfg : MeterConfig) (s : MeterState) : MeterOp → MeterState
  | MeterOp.opStart u => start u s
  | MeterOp.opReading su ev => (async_reading cfg su s ev).1
  | MeterOp.opReset now e => async_reset_meter cfg now e s
  | MeterOp.opCalibrate v => async_calibrate v s

/-- Run a list of operations left to right. -/
def runOps (cfg : MeterConfig) (s : MeterState) (ops : List MeterOp) : MeterState :=
  ops.foldl (applyOp cfg) s

/-- Period names from const.py lines 4-11. -/
def QUARTER_HOURLY : String := "quarter-hourly"

/-- Period name from const.py. -/
def HOURLY : String := "hourly"

/-- Period name from const.py. -/
def DAILY : String := "daily"

/-- Period name from const.py. -/
def WEEKLY : String := "weekly"

/-- Period name from const.py. -/
def MONTHLY : String := "monthly"

/-- Period name from const.py. -/
def BIMONTHLY : String := "bimonthly"

/-- Period name from const.py. -/
def QUARTERLY : String := "quarterly"

/-- Period name from const.py. -/
def YEARLY : String := "yearly"

/-- A Python timedelta as consumed by the cron conversion: only the days
and seconds attributes are read. -/
structure TimeDelta where
  days : Nat
  seconds : Nat
  deriving DecidableEq

/-- The PERIOD2CRON template table of sensor.py lines 73-82, with the
format call applied to concrete minute, hour and day values; an unknown
period name is a KeyError, modelled as none. -/
def PERIOD2CRON (p : String) (minute hour day : Nat) : Option String :=
  if p = QUARTER_HOURLY then some s!"{minute}/15 * * * *"
  else if p = HOURLY then some s!"{minute} * * * *"
  else if p = DAILY then some s!"{minute} {hour} * * *"
  else if p = WEEKLY then some s!"{minute} {hour} * * {day}"
  else if p = MONTHLY then some s!"{minute} {hour} {day} * *"
  else if p = BIMONTHLY then some s!"{minute} {hour} {day} */2 *"
  else if p = QUARTERLY then some s!"{minute} {hour} {day} */3 *"
  else if p = YEARLY then some s!"{minute} {hour} {day} 1/12 *"
  else none

/-- The period-plus-offset to cron conversion of UtilityMeterSensor init,
sensor.py lines 343-349: minute is offset seconds modulo 3600 divided by
60, hour is offset seconds divided by 3600, day is offset days plus
one. -/
def cronFromOffset (meter_type : String) (offset : TimeDelta) : Option String :=
  PERIOD2CRON meter_type (offset.seconds % 3600 / 60) (offset.seconds / 3600) (offset.days + 1)

/-- Case lemma: a reading without a new state is a no-op while the total
is set. -/
theorem async_reading_skip_new_none (cfg : MeterConfig) (su : Option String)
    (s : MeterState) (os : Option StateObj) (t : ℚ) (h : s.state = some t) :
    async_reading cfg su s ⟨os, none⟩ = (s, none) := by
  simp [async_reading, h]

theorem async_reading_raise_new_none (cfg : MeterConfig) (su : Option String)
    (s : MeterState) (os : Option StateObj) (h : s.state = none) :
    async_reading cfg su s ⟨os, none⟩ = (s, some PyExc.attributeError) := by
  simp [async_reading, h]

theorem async_reading_skip_unknown (cfg : MeterConfig) (su : Option String)
    (s : MeterState) (os : Option StateObj) (ns : StateObj) (t : ℚ)
    (h : s.state = some t) (h2 : stateIsUnknown ns.state = true) :
    async_reading cfg su s ⟨os, some ns⟩ = (s, none) := by
  simp [async_reading, h, h2]

theorem async_reading_skip_old (cfg : MeterConfig) (su : Option String)
    (s : MeterState) (os : Option StateObj) (ns : StateObj) (t : ℚ)
    (h : s.state = some t) (h2 : stateIsUnknown ns.state = false)
    (h3 : cfg.mode = MeterMode.normal) (h4 : oldMissing os = true) :
    async_reading cfg su s ⟨os, some ns⟩ = (s, none) := by
  simp [async_reading, h, h2, h3, h4]

theorem async_reading_decErr (cfg : MeterConfig) (su : Option String)
    (s : MeterState) (os : Option StateObj) (ns : StateObj) (t : ℚ)
    (h : s.state = some t) (h2 : stateIsUnknown ns.state = false)
    (h3 : ¬(cfg.mode = MeterMode.normal ∧ oldMissing os = true))
    (h5 : computeAdjustment cfg.mode ns os s.last_value = Except.error AdjErr.decErr) :
    async_reading cfg su s ⟨os, some ns⟩ = ({ s with unit := ns.unit }, none) := by
  simp only [async_reading]
  rw [if_neg (show ¬(stateIsUnknown ns.state = true) by simp [h2])]
  rw [if_neg h3]
  rw [if_neg (show ¬(s.state = none ∧ ns.state.truthy = true) by simp [h])]
  rw [show ({ s with unit := ns.unit } : MeterState).last_value = s.last_value from rfl, h5]
  simp [applyAdjustment]

theorem async_reading_typeErr (cfg : MeterConfig) (su : Option String)
    (s : MeterState) (os : Option StateObj) (ns : StateObj) (t : ℚ)
    (h : s.state = some t) (h2 : stateIsUnknown ns.state = false)
    (h3 : ¬(cfg.mode = MeterMode.normal ∧ oldMissing os = true))
    (h5 : computeAdjustment cfg.mode ns os s.last_value = Except.error AdjErr.typeErr) :
    async_reading cfg su s ⟨os, some ns⟩ = ({ s with unit := ns.unit }, some PyExc.typeError) := by
  simp only [async_reading]
  rw [if_neg (show ¬(stateIsUnknown ns.state = true) by simp [h2])]
  rw [if_neg h3]
  rw [if_neg (show ¬(s.state = none ∧ ns.state.truthy = true) by simp [h])]
  rw [show ({ s with unit := ns.unit } : MeterState).last_value = s.last_value from rfl, h5]
  simp [applyAdjustment]

theorem async_reading_negative (cfg : MeterConfig) (su : Option String)
    (s : MeterState) (os : Option StateObj) (ns : StateObj) (t adj : ℚ)
    (h : s.state = some t) (h2 : stateIsUnknown ns.state = false)
    (h3 : ¬(cfg.mode = MeterMode.normal ∧ oldMissing os = true))
    (h5 : computeAdjustment cfg.mode ns os s.last_value = Except.ok adj)
    (h6 : cfg.net_consumption = false) (h7 : adj < 0) :
    async_reading cfg su s ⟨os, some ns⟩
      = ({ s with unit := ns.unit, last_value := some ns.state }, none) := by
  simp only [async_reading]
  rw [if_neg (show ¬(stateIsUnknown ns.state = true) by simp [h2])]
  rw [if_neg h3]
  rw [if_neg (show ¬(s.state = none ∧ ns.state.truthy = true) by simp [h])]
  rw [show ({ s with unit := ns.unit } : MeterState).last_value = s.last_value from rfl, h5]
  simp only [applyAdjustment]
  rw [if_pos ⟨h6, h7⟩]

theorem async_reading_applied (cfg : MeterConfig) (su : Option String)
    (s : MeterState) (os : Option StateObj) (ns : StateObj) (t adj : ℚ)
    (h : s.state = some t) (h2 : stateIsUnknown ns.state = false)
    (h3 : ¬(cfg.mode = MeterMode.normal ∧ oldMissing os = true))
    (h5 : computeAdjustment cfg.mode ns os s.last_value = Except.ok adj)
    (h6 : ¬(cfg.net_consumption = false ∧ adj < 0)) :
    async_reading cfg su s ⟨os, some ns⟩
      = ({ s with unit := ns.unit, last_value := some ns.state, state := some (t + adj) }, none) := by
  simp only [async_reading]
  rw [if_neg (show ¬(stateIsUnknown ns.state = true) by simp [h2])]
  rw [if_neg h3]
  rw [if_neg (show ¬(s.state = none ∧ ns.state.truthy = true) by simp [h])]
  rw [show ({ s with unit := ns.unit } : MeterState).last_value = s.last_value from rfl, h5]
  simp only [applyAdjustment]
  rw [if_neg h6]
  simp [h]

/-- C1: in Normal mode with net consumption disabled, the reading
sequence old 10 new 10, then old 10 new 3, then old 3 new 8, applied to
a meter whose total is set, leaves the total unchanged at the 10 to 3
transition (the negative delta of minus 7 is discarded without raising)
and the subsequent 3 to 8 transition adds 5; no exception escapes. -/
theorem c1_normal_rollover_discard (su u1 u2 u3 tar te : Option String)
    (s : MeterState) (t : ℚ) (h : s.state = some t) :
    let cfg : MeterConfig := { mode := MeterMode.normal, net_consumption := false, tariff := tar, tariff_entity := te }
    let r1 := async_reading cfg su s ⟨some ⟨PyStr.num 10, u1⟩, some ⟨PyStr.num 10, u1⟩⟩
    let r2 := async_reading cfg su r1.1 ⟨some ⟨PyStr.num 10, u2⟩, some ⟨PyStr.num 3, u2⟩⟩
    let r3 := async_reading cfg su r2.1 ⟨some ⟨PyStr.num 3, u3⟩, some ⟨PyStr.num 8, u3⟩⟩
    r2.1.state = r1.1.state ∧ r1.1.state = some t ∧ r3.1.state = some (t + 5)
      ∧ r1.2 = none ∧ r2.2 = none ∧ r3.2 = none := by
  intro cfg r1 r2 r3
  have e1 : r1 = ({ s with unit := u1, last_value := some (PyStr.num 10), state := some (t + (10 - 10)) }, none) :=
    async_reading_applied cfg su s _ _ t (10 - 10) h rfl (by simp [oldMissing, stateIsUnknown])
      rfl (by norm_num)
  have h1 : r1.1.state = some (t + (10 - 10)) := by rw [e1]
  have e2 : r2 = ({ r1.1 with unit := u2, last_value := some (PyStr.num 3) }, none) :=
    async_reading_negative cfg su r1.1 _ _ (t + (10 - 10)) (3 - 10) h1 rfl
      (by simp [oldMissing, stateIsUnknown]) rfl rfl (by norm_num)
  have h2 : r2.1.state = some (t + (10 - 10)) := by rw [e2]; exact h1
  have e3 : r3 = ({ r2.1 with unit := u3, last_value := some (PyStr.num 8), state := some ((t + (10 - 10)) + (8 - 3)) }, none) :=
    async_reading_applied cfg su r2.1 _ _ (t + (10 - 10)) (8 - 3) h2 rfl
      (by simp [oldMissing, stateIsUnknown]) rfl (by norm_num)
  refine ⟨by rw [e2], by rw [e1]; norm_num, by rw [e3]; norm_num, by rw [e1], by rw [e2], by rw [e3]⟩

/-- C3: a reset broadcast carrying this meter's own tariff entity
freezes the prior total (zero when the total was unset) into the last
period field -- the closed total reported for statistics -- zeroes the
total, clears the last raw value and stamps the reset instant; a second
immediate reset leaves last period zero and the total zero. -/
theorem c3_reset_period (cfg : MeterConfig) (s : MeterState) (n1 n2 : Nat) :
    let r1 := async_reset_meter cfg n1 cfg.tariff_entity s
    let r2 := async_reset_meter cfg n2 cfg.tariff_entity r1
    r1.last_period = s.state.getD 0 ∧ r1.state = some 0 ∧ r1.last_value = none
      ∧ r1.last_reset = some n1
      ∧ r2.last_period = 0 ∧ r2.state = some 0 := by
  intro r1 r2
  have e1 : r1 = { s with last_reset := some n1, last_period := (match s.state with | some t => if t = 0 then (0 : ℚ) else t | none => 0), state := some 0, last_value := none } := by
    show async_reset_meter cfg n1 cfg.tariff_entity s = _
    unfold async_reset_meter
    rw [if_neg (by simp)]
  have e2 : r2 = { r1 with last_reset := some n2, last_period := (match r1.state with | some t => if t = 0 then (0 : ℚ) else t | none => 0), state := some 0, last_value := none } := by
    show async_reset_meter cfg n2 cfg.tariff_entity r1 = _
    unfold async_reset_meter
    rw [if_neg (by simp)]
  refine ⟨?_, by rw [e1], by rw [e1], by rw [e1], ?_, by rw [e2]⟩
  · rw [e1]
    cases hs : s.state with
    | none => simp
    | some t =>
      by_cases ht : t = 0 <;> simp [hs, ht]
  · rw [e2]
    have hr : r1.state = some 0 := by rw [e1]
    rw [hr]
    simp

/-- C6 counterexample: a meter assigned tariff peak, currently paused
and holding a last raw value, receives the tariff value off-peak;
re-entering Paused is claimed to be a no-op, yet the code clears the
last raw value unconditionally. -/
theorem c6_pause_clears_last_value :
    let cfg : MeterConfig := { mode := MeterMode.normal, net_consumption := false, tariff := some "peak", tariff_entity := some "select.tariff" }
    let s : MeterState := { state := some 5, last_value := some (PyStr.num 7), last_period := 0, last_reset := some 0, unit := none, collecting := false }
    let r := async_tariff_change cfg s (some "off-peak")
    s.collecting = false ∧ r.collecting = false ∧ s.last_value = some (PyStr.num 7)
      ∧ r.last_value = none := by
  exact ⟨rfl, rfl, rfl, rfl⟩

/-- C6 amended: every tariff-change event that carries a new value
clears the last raw value unconditionally -- entering Paused as well as
entering Collecting -- and then sets the collecting flag to whether the
value matches this meter's tariff; the total, last period, last reset
and unit are untouched, and an event without a new value is a no-op. -/
theorem c6_tariff_change (cfg : MeterConfig) (s : MeterState) (v : String) :
    let r := async_tariff_change cfg s (some v)
    r.last_value = none
      ∧ r.collecting = (cfg.tariff = some v)
      ∧ r.state = s.state ∧ r.last_period = s.last_period ∧ r.last_reset = s.last_reset
      ∧ r.unit = s.unit
      ∧ async_tariff_change cfg s none = s := by
  intro r
  have e : r = change_status cfg v { s with last_value := none } := rfl
  unfold change_status at e
  by_cases hv : cfg.tariff = some v
  · rw [if_pos hv] at e
    refine ⟨by rw [e], by rw [e]; simp [hv], by rw [e], by rw [e], by rw [e], by rw [e], rfl⟩
  · rw [if_neg hv] at e
    refine ⟨by rw [e], by rw [e]; simp [hv], by rw [e], by rw [e], by rw [e], by rw [e], rfl⟩

/-- C9: the period-plus-offset conversion maps the offset day component
to one-based day of month (days plus 1) and the seconds to hour and
minute by integer division and modulo by 3600 and 60; in particular a
monthly schedule with offset of 4 days and 5400 seconds resolves to the
cron pattern 30 1 5 * *, meaning day 5 at 01:30 each month. -/
theorem c9_monthly_cron (days seconds : Nat) :
    cronFromOffset MONTHLY ⟨days, seconds⟩
        = some (toString (seconds % 3600 / 60) ++ " " ++ toString (seconds / 3600)
            ++ " " ++ toString (days + 1) ++ " * *")
      ∧ cronFromOffset MONTHLY ⟨4, 5400⟩ = some "30 1 5 * *" := by
  constructor
  · show PERIOD2CRON MONTHLY (seconds % 3600 / 60) (seconds / 3600) (days + 1) = _
    unfold PERIOD2CRON
    rw [if_neg (by decide), if_neg (by decide), if_neg (by decide), if_neg (by decide), if_pos rfl]
    simp [toString, String.append_assoc, String.empty_append]
  · rfl

/-- C5 counterexample: start is not idempotent-guarded in the code --
called on a meter whose total is already 5 it overwrites the total with
zero, so the claimed no-op behaviour for a set total fails. -/
theorem c5_start_overwrites :
    let s : MeterState := { state := some 5, last_value := none, last_period := 0, last_reset := some 0, unit := some "Wh", collecting := true }
    s.state = some 5 ∧ (start (some "kWh") s).state = some 0 := ⟨rfl, rfl⟩

/-- C5 amended: start unconditionally sets the total to zero and
records the unit; the guard lives at the call site in async_reading:
the first-update fan-out runs only while the receiving sensor's own
total is unset, so with a set total an unknown-valued event is a pure
no-op, while with an unset total the same event initializes the meter
via start with the source unit. -/
theorem c5_start_guard_at_callsite (u su : Option String) (cfg : MeterConfig)
    (s : MeterState) (os : Option StateObj) (ua : Option String) (t : ℚ)
    (h : s.state = some t) :
    (start u s).state = some 0 ∧ (start u s).unit = u
      ∧ (async_reading cfg su s ⟨os, some ⟨PyStr.unknownS, ua⟩⟩).1 = s
      ∧ (async_reading cfg su (initMeterState 0) ⟨os, some ⟨PyStr.unknownS, ua⟩⟩).1
          = start su (initMeterState 0) := by
  refine ⟨rfl, rfl, ?_, ?_⟩
  · have e := async_reading_skip_unknown cfg su s os ⟨PyStr.unknownS, ua⟩ t h rfl
    rw [e]
  · rfl

/-- C7 counterexample: a meter state whose last raw value is unset (as
after any reset, calibration or tariff change) serializes the last
value as the string None, which from_dict cannot decode as a Decimal,
so the preferred-shape round trip returns none instead of reproducing
the state. -/
theorem c7_roundtrip_fails_on_none :
    let s : MeterState := { state := some 5, last_value := none, last_period := 2, last_reset := some 3, unit := some "kWh", collecting := true }
    UtilitySensorExtraStoredData.from_dict
        (UtilitySensorExtraStoredData.as_dict (extra_restore_state_data s)) = none := rfl

/-- C7 amended: for every meter state whose last raw value holds a
decimal-parseable string and whose last reset instant is set, the
preferred-snapshot round trip through as_dict and from_dict succeeds
and restoring the decoded snapshot onto a fresh meter reproduces the
total, the last committed period, the last reset instant and the
collecting status. -/
theorem c7_roundtrip_restore (s : MeterState) (k : Nat) (q : ℚ) (n : Nat)
    (h : s.last_value = some (PyStr.num q)) (h2 : s.last_reset = some n) :
    UtilitySensorExtraStoredData.from_dict
        (UtilitySensorExtraStoredData.as_dict (extra_restore_state_data s))
        = some (extra_restore_state_data s)
      ∧ (restore_preferred (extra_restore_state_data s) (initMeterState k)).state = s.state
      ∧ (restore_preferred (extra_restore_state_data s) (initMeterState k)).last_period = s.last_period
      ∧ (restore_preferred (extra_restore_state_data s) (initMeterState k)).last_reset = s.last_reset
      ∧ (restore_preferred (extra_restore_state_data s) (initMeterState k)).collecting = s.collecting := by
  refine ⟨?_, rfl, rfl, ?_, ?_⟩
  · unfold UtilitySensorExtraStoredData.as_dict UtilitySensorExtraStoredData.from_dict extra_restore_state_data strOfLastValue
    simp [h, h2, parseDecimal]
  · unfold restore_preferred extra_restore_state_data initMeterState
    rw [h2]
  · unfold restore_preferred extra_restore_state_data initMeterState
    by_cases hc : s.collecting
    · simp [hc, COLLECTING]
    · simp [hc, COLLECTING, PAUSED]

/-- C8: legacy restore with a decodable bare value and a parseable
last-reset attribute restores a missing or non-numeric last-period
attribute as zero without failing (no exception escapes and the bare
value becomes the total), and a legacy state whose bare value does not
decode falls through to a cold start, leaving the fresh state
untouched. -/
theorem c8_legacy_defaults (ls : LegacyState) (k : Nat) (v : ℚ) (n : Nat)
    (h : parseDecimal ls.state = some v) (h2 : ls.last_reset = some n)
    (h3 : ls.last_period = none ∨ ∃ p, ls.last_period = some p ∧ isNumber p = false) :
    (legacy_restore ls (initMeterState k)).1.last_period = 0
      ∧ (legacy_restore ls (initMeterState k)).2 = none
      ∧ (legacy_restore ls (initMeterState k)).1.state = some v
      ∧ ∀ ls2 : LegacyState, parseDecimal ls2.state = none →
          legacy_restore ls2 (initMeterState k) = (initMeterState k, none) := by
  have hlp : (match ls.last_period with | some p => if p.truthy = true ∧ isNumber p = true then (parseDecimal p).getD 0 else 0 | none => (0 : ℚ)) = 0 := by
    rcases h3 with h3 | ⟨p, hp, hnum⟩
    · rw [h3]
    · rw [hp]
      simp [hnum]
  refine ⟨?_, ?_, ?_, ?_⟩
  · unfold legacy_restore
    simp only [h, h2]
    cases hlv : ls.last_value <;> by_cases hst : ls.status = some COLLECTING <;>
      simp [hst, hlp, hlv]
  · unfold legacy_restore
    simp only [h, h2]
    cases hlv : ls.last_value <;> by_cases hst : ls.status = some COLLECTING <;>
      simp [hst, hlv]
  · unfold legacy_restore
    simp only [h, h2]
    cases hlv : ls.last_value <;> by_cases hst : ls.status = some COLLECTING <;>
      simp [hst, hlv]
  · intro ls2 hn
    unfold legacy_restore
    simp only [hn]

/-- Inversion: the TypeError of the adjustment computation arises only
in the last-reading mode with an unset last raw value (Decimal(None)).
-/
theorem computeAdjustment_typeErr_inv (m : MeterMode) (ns : StateObj)
    (os : Option StateObj) (lv : Option PyStr)
    (h : computeAdjustment m ns os lv = Except.error AdjErr.typeErr) :
    m = MeterMode.lastReading ∧ lv = none := by
  cases m
  case normal =>
    exfalso
    unfold computeAdjustment at h
    cases hp : parseDecimal ns.state <;> simp only [hp] at h
    · simp at h
    · cases os with
      | none => simp at h
      | some o => cases hq : parseDecimal o.state <;> simp only [hq] at h <;> simp at h
  case delta =>
    exfalso
    unfold computeAdjustment at h
    cases hp : parseDecimal ns.state <;> simp only [hp] at h <;> simp at h
  case lastReading =>
    refine ⟨rfl, ?_⟩
    unfold computeAdjustment at h
    cases hp : parseDecimal ns.state <;> simp only [hp] at h
    · simp at h
    · cases lv with
      | none => rfl
      | some lv2 => cases hq : parseDecimal lv2 <;> simp only [hq] at h <;> simp at h

/-- Inversion: the AttributeError of the adjustment computation arises
only in Normal mode with an absent old state, a case the old-state
guard of async_reading has already filtered out. -/
theorem computeAdjustment_attrErr_inv (m : MeterMode) (ns : StateObj)
    (os : Option StateObj) (lv : Option PyStr)
    (h : computeAdjustment m ns os lv = Except.error AdjErr.attrErr) :
    m = MeterMode.normal ∧ os = none := by
  cases m
  case normal =>
    refine ⟨rfl, ?_⟩
    unfold computeAdjustment at h
    cases hp : parseDecimal ns.state <;> simp only [hp] at h
    · simp at h
    · cases os with
      | none => rfl
      | some o => cases hq : parseDecimal o.state <;> simp only [hq] at h <;> simp at h
  case delta =>
    exfalso
    unfold computeAdjustment at h
    cases hp : parseDecimal ns.state <;> simp only [hp] at h <;> simp at h
  case lastReading =>
    exfalso
    unfold computeAdjustment at h
    cases hp : parseDecimal ns.state <;> simp only [hp] at h
    · simp at h
    · cases lv with
      | none => simp at h
      | some lv2 => cases hq : parseDecimal lv2 <;> simp only [hq] at h <;> simp at h

/-- IsAnomaly: the transient-data-anomaly classification enumerated by
the claim: the new value is absent or unknown/unavailable, Normal mode
lacks a usable old value, a numeric operand of the adjustment fails to
decode, or the adjustment is negative while net consumption is
disabled. -/
def IsAnomaly (cfg : MeterConfig) (s : MeterState) (ev : ReadingEvent) : Prop :=
  match ev.new_state with
  | none => True
  | some ns =>
    stateIsUnknown ns.state = true
    ∨ (cfg.mode = MeterMode.normal ∧ oldMissing ev.old_state = true)
    ∨ (match computeAdjustment cfg.mode ns ev.old_state s.last_value with
       | Except.error _ => True
       | Except.ok adj => cfg.net_consumption = false ∧ adj < 0)

/-- C2 counterexample: an unknown-valued source event is a transient
anomaly the claim says is a no-op, yet delivered to a meter whose total
is still unset it triggers the first-update fan-out, which starts the
meter: the total changes from unset to zero and the unit is taken from
the source entity. -/
theorem c2_unknown_event_starts_meter :
    let cfg : MeterConfig := { mode := MeterMode.normal, net_consumption := false, tariff := none, tariff_entity := none }
    let s : MeterState := initMeterState 0
    let ev : ReadingEvent := ⟨none, some ⟨PyStr.unknownS, none⟩⟩
    s.state = none ∧ (async_reading cfg (some "kWh") s ev).1.state = some 0
      ∧ (async_reading cfg (some "kWh") s ev).1.unit = some "kWh" :=
  ⟨rfl, rfl, rfl⟩

/-- C2 amended: for a meter whose total is already set, every
transient-anomaly event leaves the total, last committed period, last
reset instant and collecting status unchanged, and no exception escapes
except in last-reading mode with an unset last raw value, where the
uncaught TypeError of Decimal(None) propagates (the unit and the last
raw value may still be overwritten on the way). -/
theorem c2_anomaly_totals_preserved (cfg : MeterConfig) (su : Option String)
    (s : MeterState) (ev : ReadingEvent) (t : ℚ)
    (h : s.state = some t) (ha : IsAnomaly cfg s ev) :
    (async_reading cfg su s ev).1.state = s.state
      ∧ (async_reading cfg su s ev).1.last_period = s.last_period
      ∧ (async_reading cfg su s ev).1.last_reset = s.last_reset
      ∧ (async_reading cfg su s ev).1.collecting = s.collecting
      ∧ ((async_reading cfg su s ev).2 = none
          ∨ (cfg.mode = MeterMode.lastReading ∧ s.last_value = none
              ∧ (async_reading cfg su s ev).2 = some PyExc.typeError)) := by
  obtain ⟨os, nsOpt⟩ := ev
  cases nsOpt with
  | none =>
    rw [async_reading_skip_new_none cfg su s os t h]
    exact ⟨rfl, rfl, rfl, rfl, Or.inl rfl⟩
  | some ns =>
    by_cases hu : stateIsUnknown ns.state = true
    · rw [async_reading_skip_unknown cfg su s os ns t h hu]
      exact ⟨rfl, rfl, rfl, rfl, Or.inl rfl⟩
    · have hu2 : stateIsUnknown ns.state = false := by simpa using hu
      by_cases hm : cfg.mode = MeterMode.normal ∧ oldMissing os = true
      · rw [async_reading_skip_old cfg su s os ns t h hu2 hm.1 hm.2]
        exact ⟨rfl, rfl, rfl, rfl, Or.inl rfl⟩
      · cases hadj : computeAdjustment cfg.mode ns os s.last_value with
        | error e2 =>
          cases e2 with
          | decErr =>
            rw [async_reading_decErr cfg su s os ns t h hu2 hm hadj]
            exact ⟨rfl, rfl, rfl, rfl, Or.inl rfl⟩
          | typeErr =>
            obtain ⟨hmode, hlv⟩ := computeAdjustment_typeErr_inv _ _ _ _ hadj
            rw [async_reading_typeErr cfg su s os ns t h hu2 hm hadj]
            exact ⟨rfl, rfl, rfl, rfl, Or.inr ⟨hmode, hlv, rfl⟩⟩
          | attrErr =>
            obtain ⟨hmode, hos⟩ := computeAdjustment_attrErr_inv _ _ _ _ hadj
            exact absurd ⟨hmode, by simp [hos, oldMissing]⟩ hm
        | ok adj =>
          have hneg : cfg.net_consumption = false ∧ adj < 0 := by
            unfold IsAnomaly at ha
            simp only [hadj] at ha
            rcases ha with ha | ha | ha
            · exact absurd ha hu
            · exact absurd ha hm
            · exact ha
          rw [async_reading_negative cfg su s os ns t adj h hu2 hm hadj hneg.1 hneg.2]
          exact ⟨rfl, rfl, rfl, rfl, Or.inl rfl⟩

/-- C10 counterexample: a processed Normal-mode event whose new value
fails decimal parsing is claimed to leave the total unchanged, yet when
the total is still unset the first-update fan-out initializes it to
zero before the parse failure is caught. -/
theorem c10_parse_failure_starts_meter :
    let cfg : MeterConfig := { mode := MeterMode.normal, net_consumption := false, tariff := none, tariff_entity := none }
    let s : MeterState := initMeterState 0
    let ev : ReadingEvent := ⟨some ⟨PyStr.num 5, none⟩, some ⟨PyStr.other "abc", none⟩⟩
    s.state = none ∧ (async_reading cfg (some "Wh") s ev).1.state = some 0
      ∧ (async_reading cfg (some "Wh") s ev).2 = none :=
  ⟨rfl, rfl, rfl⟩

/-- C10 amended: for a meter whose total is already set, every
processed source event (one passing the unknown/unavailable and
Normal-mode old-state guards) overwrites the stored unit with the new
state's unit attribute -- clearing it when the attribute is absent --
and a reading whose adjustment computation fails leaves the total
unchanged. -/
theorem c10_unit_overwritten (cfg : MeterConfig) (su : Option String)
    (s : MeterState) (os : Option StateObj) (ns : StateObj) (t : ℚ)
    (h : s.state = some t) (h2 : stateIsUnknown ns.state = false)
    (h3 : ¬(cfg.mode = MeterMode.normal ∧ oldMissing os = true)) :
    (async_reading cfg su s ⟨os, some ns⟩).1.unit = ns.unit
      ∧ ∀ e, computeAdjustment cfg.mode ns os s.last_value = Except.error e →
          (async_reading cfg su s ⟨os, some ns⟩).1.state = s.state := by
  constructor
  · cases hadj : computeAdjustment cfg.mode ns os s.last_value with
    | error e2 =>
      cases e2 with
      | decErr => rw [async_reading_decErr cfg su s os ns t h h2 h3 hadj]
      | typeErr => rw [async_reading_typeErr cfg su s os ns t h h2 h3 hadj]
      | attrErr =>
        obtain ⟨hmode, hos⟩ := computeAdjustment_attrErr_inv _ _ _ _ hadj
        exact absurd ⟨hmode, by simp [hos, oldMissing]⟩ h3
    | ok adj =>
      by_cases hneg : cfg.net_consumption = false ∧ adj < 0
      · rw [async_reading_negative cfg su s os ns t adj h h2 h3 hadj hneg.1 hneg.2]
      · rw [async_reading_applied cfg su s os ns t adj h h2 h3 hadj hneg]
  · intro e2 hadj
    cases e2 with
    | decErr => rw [async_reading_decErr cfg su s os ns t h h2 h3 hadj]
    | typeErr => rw [async_reading_typeErr cfg su s os ns t h h2 h3 hadj]
    | attrErr =>
      obtain ⟨hmode, hos⟩ := computeAdjustment_attrErr_inv _ _ _ _ hadj
      exact absurd ⟨hmode, by simp [hos, oldMissing]⟩ h3

/-- totalOk: every set total is nonnegative. -/
def totalOk (s : MeterState) : Prop := ∀ t : ℚ, s.state = some t → 0 ≤ t

/-- With net consumption disabled, applying an adjustment result keeps
every set total nonnegative. -/
theorem totalOk_applyAdjustment (net : Bool) (ns : StateObj) (s2 : MeterState)
    (res : Except AdjErr ℚ) (hnet : net = false) (hs : totalOk s2) :
    totalOk (applyAdjustment net ns s2 res).1 := by
  cases res with
  | error e => cases e <;> exact hs
  | ok adj =>
    by_cases hneg : net = false ∧ adj < 0
    · simp only [applyAdjustment]
      rw [if_pos hneg]
      exact hs
    · have hadj : 0 ≤ adj := by
        rcases not_and_or.mp hneg with hx | hx
        · exact absurd hnet hx
        · exact le_of_not_lt hx
      simp only [applyAdjustment]
      rw [if_neg hneg]
      cases h2 : s2.state with
      | none => simp only [h2]; intro t ht; simp at ht
      | some t0 =>
        simp only [h2]
        intro t ht
        simp only [Option.some.injEq] at ht
        have h0 : (0 : ℚ) ≤ t0 := hs t0 h2
        rw [show t = t0 + adj from ht.symm]
        exact add_nonneg h0 hadj

/-- Applying an adjustment result never unsets a set total. -/
theorem applyAdjustment_isSome (net : Bool) (ns : StateObj) (s2 : MeterState)
    (res : Except AdjErr ℚ) (h : s2.state ≠ none) :
    (applyAdjustment net ns s2 res).1.state ≠ none := by
  cases res with
  | error e => cases e <;> exact h
  | ok adj =>
    by_cases hneg : net = false ∧ adj < 0
    · simp only [applyAdjustment]
      rw [if_pos hneg]
      exact h
    · simp only [applyAdjustment]
      rw [if_neg hneg]
      cases h2 : s2.state with
      | none => exact absurd h2 h
      | some t0 => simp only [h2]; simp

/-- start always leaves a nonnegative total. -/
theorem totalOk_start (u : Option String) (s : MeterState) : totalOk (start u s) := by
  intro t ht
  have h2 : some (0 : ℚ) = some t := ht
  injection h2 with h3
  rw [h3.symm]

/-- Overwriting the unit preserves the nonnegative-total invariant. -/
theorem totalOk_setUnit (u : Option String) (s : MeterState) (hs : totalOk s) :
    totalOk { s with unit := u } :=
  fun t ht => hs t ht

/-- With net consumption disabled, a reading keeps every set total
nonnegative. -/
theorem totalOk_async_reading (cfg : MeterConfig) (su : Option String)
    (s : MeterState) (ev : ReadingEvent) (hnet : cfg.net_consumption = false)
    (hs : totalOk s) : totalOk (async_reading cfg su s ev).1 := by
  obtain ⟨os, nsOpt⟩ := ev
  cases nsOpt with
  | none =>
    by_cases h0 : s.state = none
    · simp only [async_reading]
      rw [if_pos h0]
      exact hs
    · simp only [async_reading]
      rw [if_neg h0]
      exact hs
  | some ns =>
    simp only [async_reading]
    by_cases h1 : s.state = none ∧ ns.state.truthy = true
    · rw [if_pos h1]
      by_cases hu : stateIsUnknown ns.state = true
      · rw [if_pos hu]
        exact totalOk_start su s
      · rw [if_neg hu]
        by_cases hm : cfg.mode = MeterMode.normal ∧ oldMissing os = true
        · rw [if_pos hm]
          exact totalOk_start su s
        · rw [if_neg hm]
          exact totalOk_applyAdjustment _ _ _ _ hnet
            (totalOk_setUnit ns.unit (start su s) (totalOk_start su s))
    · rw [if_neg h1]
      by_cases hu : stateIsUnknown ns.state = true
      · rw [if_pos hu]
        exact hs
      · rw [if_neg hu]
        by_cases hm : cfg.mode = MeterMode.normal ∧ oldMissing os = true
        · rw [if_pos hm]
          exact hs
        · rw [if_neg hm]
          exact totalOk_applyAdjustment _ _ _ _ hnet (totalOk_setUnit ns.unit s hs)

/-- A reading never unsets a set total. -/
theorem async_reading_isSome (cfg : MeterConfig) (su : Option String)
    (s : MeterState) (ev : ReadingEvent) (h : s.state ≠ none) :
    (async_reading cfg su s ev).1.state ≠ none := by
  obtain ⟨os, nsOpt⟩ := ev
  cases nsOpt with
  | none =>
    simp only [async_reading]
    rw [if_neg h]
    exact h
  | some ns =>
    simp only [async_reading]
    rw [if_neg (fun hx => h hx.1 : ¬(s.state = none ∧ ns.state.truthy = true))]
    by_cases hu : stateIsUnknown ns.state = true
    · rw [if_pos hu]
      exact h
    · rw [if_neg hu]
      by_cases hm : cfg.mode = MeterMode.normal ∧ oldMissing os = true
      · rw [if_pos hm]
        exact h
      · rw [if_neg hm]
        exact applyAdjustment_isSome _ _ _ _ h

/-- C4 counterexample: the invariant claims a set total stays
nonnegative whenever net consumption is disabled, but the calibrate
command accepts any number: calibrating with minus 5 forces a negative
total. -/
theorem c4_negative_calibration :
    let cfg : MeterConfig := { mode := MeterMode.normal, net_consumption := false, tariff := none, tariff_entity := none }
    let s := runOps cfg (initMeterState 0) [MeterOp.opStart none, MeterOp.opCalibrate (-5)]
    cfg.net_consumption = false ∧ s.state = some (-5) ∧ ((-5 : ℚ) < 0) :=
  ⟨rfl, rfl, by norm_num⟩

/-- C4 amended: over every operation sequence with net consumption
disabled and no negative calibration value, every set total stays
nonnegative, and once the total is set no operation unsets it. -/
theorem c4_total_invariant (cfg : MeterConfig) (ops : List MeterOp)
    (hnet : cfg.net_consumption = false) (s : MeterState)
    (hs : totalOk s) (hcal : ∀ v : ℚ, MeterOp.opCalibrate v ∈ ops → 0 ≤ v) :
    totalOk (runOps cfg s ops)
      ∧ (s.state ≠ none → (runOps cfg s ops).state ≠ none) := by
  induction ops generalizing s with
  | nil => exact ⟨hs, fun hx => hx⟩
  | cons op rest ih =>
    have hstep : totalOk (applyOp cfg s op) := by
      cases op with
      | opStart u => exact totalOk_start u s
      | opReading su ev => exact totalOk_async_reading cfg su s ev hnet hs
      | opReset now e =>
        show totalOk (async_reset_meter cfg now e s)
        unfold async_reset_meter
        by_cases he : cfg.tariff_entity ≠ e
        · rw [if_pos he]
          exact hs
        · rw [if_neg he]
          intro t ht
          have h2 : some (0 : ℚ) = some t := ht
          injection h2 with h3
          rw [h3.symm]
      | opCalibrate v =>
        have hv : (0 : ℚ) ≤ v := hcal v (List.mem_cons_self _ _)
        intro t ht
        have h2 : some v = some t := ht
        injection h2 with h3
        rw [h3.symm]
        exact hv
    have hsome : s.state ≠ none → (applyOp cfg s op).state ≠ none := by
      cases op with
      | opStart u => exact fun _ => by simp [applyOp, start]
      | opReading su ev => exact fun hx => async_reading_isSome cfg su s ev hx
      | opReset now e =>
        intro hx
        show (async_reset_meter cfg now e s).state ≠ none
        unfold async_reset_meter
        by_cases he : cfg.tariff_entity ≠ e
        · rw [if_pos he]
          exact hx
        · rw [if_neg he]
          simp
      | opCalibrate v => exact fun _ => by simp [applyOp, async_calibrate]
    have hrest := ih (applyOp cfg s op) hstep (fun v hv => hcal v (List.mem_cons_of_mem _ hv))
    exact ⟨hrest.1, fun hx => hrest.2 (hsome hx)⟩

/-- C1 witness -/
theorem c1_normal_rollover_discard_witness :
    (async_reading ⟨MeterMode.normal, false, none, none⟩ none (async_reading ⟨MeterMode.normal, false, none, none⟩ none { state := some 0, last_value := none, last_period := 0, last_reset := some 0, unit := none, collecting := false } ⟨some ⟨PyStr.num 10, none⟩, some ⟨PyStr.num 10, none⟩⟩).1 ⟨some ⟨PyStr.num 10, none⟩, some ⟨PyStr.num 3, none⟩⟩).1.state
      = (async_reading ⟨MeterMode.normal, false, none, none⟩ none { state := some 0, last_value := none, last_period := 0, last_reset := some 0, unit := none, collecting := false } ⟨some ⟨PyStr.num 10, none⟩, some ⟨PyStr.num 10, none⟩⟩).1.state :=
  (c1_normal_rollover_discard none none none none none none
    { state := some 0, last_value := none, last_period := 0, last_reset := some 0, unit := none, collecting := false } 0 rfl).1

/-- C2 witness -/
theorem c2_anomaly_totals_preserved_witness :
    (async_reading ⟨MeterMode.normal, false, none, none⟩ none { state := some 5, last_value := some (PyStr.num 5), last_period := 1, last_reset := some 2, unit := some "Wh", collecting := true } ⟨some ⟨PyStr.num 5, none⟩, some ⟨PyStr.unavailableS, none⟩⟩).1.state
      = ({ state := some 5, last_value := some (PyStr.num 5), last_period := 1, last_reset := some 2, unit := some "Wh", collecting := true } : MeterState).state :=
  (c2_anomaly_totals_preserved ⟨MeterMode.normal, false, none, none⟩ none
    { state := some 5, last_value := some (PyStr.num 5), last_period := 1, last_reset := some 2, unit := some "Wh", collecting := true }
    ⟨some ⟨PyStr.num 5, none⟩, some ⟨PyStr.unavailableS, none⟩⟩ 5 rfl (Or.inl rfl)).1

/-- C4 witness -/
theorem c4_total_invariant_witness :
    totalOk (runOps ⟨MeterMode.normal, false, none, none⟩ (initMeterState 0)
      [MeterOp.opStart none, MeterOp.opCalibrate 2]) :=
  (c4_total_invariant ⟨MeterMode.normal, false, none, none⟩
    [MeterOp.opStart none, MeterOp.opCalibrate 2] rfl (initMeterState 0)
    (fun t ht => by simp [initMeterState] at ht)
    (fun v hv => by
      simp only [List.mem_cons, List.not_mem_nil, or_false] at hv
      rcases hv with hv | hv
      · cases hv
      · cases hv
        norm_num)).1

/-- C5 witness -/
theorem c5_start_guard_at_callsite_witness :
    (async_reading ⟨MeterMode.normal, false, none, none⟩ (some "Wh") { state := some 3, last_value := none, last_period := 0, last_reset := some 0, unit := some "Wh", collecting := true } ⟨none, some ⟨PyStr.unknownS, none⟩⟩).1
      = { state := some 3, last_value := none, last_period := 0, last_reset := some 0, unit := some "Wh", collecting := true } :=
  (c5_start_guard_at_callsite (some "kWh") (some "Wh") ⟨MeterMode.normal, false, none, none⟩
    { state := some 3, last_value := none, last_period := 0, last_reset := some 0, unit := some "Wh", collecting := true }
    none none 3 rfl).2.2.1

/-- C7 witness -/
theorem c7_roundtrip_restore_witness :
    UtilitySensorExtraStoredData.from_dict
        (UtilitySensorExtraStoredData.as_dict (extra_restore_state_data { state := some 1, last_value := some (PyStr.num 4), last_period := 2, last_reset := some 9, unit := some "kWh", collecting := true }))
      = some (extra_restore_state_data { state := some 1, last_value := some (PyStr.num 4), last_period := 2, last_reset := some 9, unit := some "kWh", collecting := true }) :=
  (c7_roundtrip_restore
    { state := some 1, last_value := some (PyStr.num 4), last_period := 2, last_reset := some 9, unit := some "kWh", collecting := true }
    0 4 9 rfl rfl).1

/-- C8 witness -/
theorem c8_legacy_defaults_witness :
    (legacy_restore { state := PyStr.num 7, unit := some "Wh", last_period := none, last_value := some (PyStr.num 3), last_reset := some 11, status := some "collecting" } (initMeterState 0)).1.last_period = 0
      ∧ (legacy_restore { state := PyStr.num 7, unit := some "Wh", last_period := none, last_value := some (PyStr.num 3), last_reset := some 11, status := some "collecting" } (initMeterState 0)).2 = none :=
  ⟨(c8_legacy_defaults
      { state := PyStr.num 7, unit := some "Wh", last_period := none, last_value := some (PyStr.num 3), last_reset := some 11, status := some "collecting" }
      0 7 11 rfl rfl (Or.inl rfl)).1,
   (c8_legacy_defaults
      { state := PyStr.num 7, unit := some "Wh", last_period := none, last_value := some (PyStr.num 3), last_reset := some 11, status := some "collecting" }
      0 7 11 rfl rfl (Or.inl rfl)).2.1⟩

/-- C10 witness -/
theorem c10_unit_overwritten_witness :
    (async_reading ⟨MeterMode.normal, false, none, none⟩ none { state := some 2, last_value := none, last_period := 0, last_reset := some 0, unit := some "Wh", collecting := true } ⟨some ⟨PyStr.num 1, none⟩, some ⟨PyStr.other "xyz", some "MWh"⟩⟩).1.unit = some "MWh" :=
  (c10_unit_overwritten ⟨MeterMode.normal, false, none, none⟩ none
    { state := some 2, last_value := none, last_period := 0, last_reset := some 0, unit := some "Wh", collecting := true }
    (some ⟨PyStr.num 1, none⟩) ⟨PyStr.other "xyz", some "MWh"⟩ 2 rfl rfl
    (by simp [oldMissing, stateIsUnknown])).1
